import Mathlib

/-
Verification of the CUCM CDR failed-call reporter core
(`cucm_cdr_reporter.py`): record decoding, failure classification,
idempotent persistence, aggregation and retention, shallowly embedded
in Lean.  Python integers are modelled as `Int`/`Nat`, `datetime`
values as seconds-since-epoch (`Int`, `Option Int` when nullable),
SQLite tables as Lean lists.
-/

/-! ## Python integer parsing

Model of Python's `int(s)` on ASCII decimal literals: surrounding
whitespace is stripped, an optional sign is followed by a nonempty
digit sequence in which single underscores may appear between digits.
`none` models a raised `ValueError`. -/

/-- Whitespace for Python's `str.strip` (ASCII fragment). -/
def isPyWhitespace (c : Char) : Bool :=
  c == ' ' || c == '\t' || c == '\n' || c == '\r' || c == '\x0b' || c == '\x0c'

/-- Python `str.strip()` over a character list. -/
def pyStrip (cs : List Char) : List Char :=
  ((cs.dropWhile isPyWhitespace).reverse.dropWhile isPyWhitespace).reverse

/-- Python `str.strip()` on strings. -/
def pyStripStr (s : String) : String :=
  String.mk (pyStrip s.toList)

/-- Numeric value of an ASCII digit character. -/
def charDigitVal (c : Char) : Nat := c.toNat - 48

/-- Value of a list of ASCII digits, most significant first. -/
def digitsToNat (cs : List Char) : Nat :=
  cs.foldl (fun acc c => 10 * acc + charDigitVal c) 0

/-- No two consecutive underscores occur in the character list. -/
def noDoubleUnderscore : List Char → Bool
  | '_' :: '_' :: _ => false
  | _ :: rest => noDoubleUnderscore rest
  | [] => true

/-- The characters form a valid Python digit run: nonempty, only
digits and underscores, first and last are digits, no `__`. -/
def validDigitsPart (cs : List Char) : Bool :=
  match cs with
  | [] => false
  | _ =>
    cs.all (fun c => c.isDigit || c == '_') &&
    (cs.headD '0').isDigit && (cs.getLastD '0').isDigit &&
    noDoubleUnderscore cs

/-- Model of Python `int(s)` (base 10, ASCII): `some n` on success,
`none` models `ValueError`. -/
def pyIntOfStr? (s : String) : Option Int :=
  let cs := pyStrip s.toList
  match cs with
  | '+' :: rest =>
    if validDigitsPart rest then
      some (Int.ofNat (digitsToNat (rest.filter (fun c => c != '_'))))
    else none
  | '-' :: rest =>
    if validDigitsPart rest then
      some (-(Int.ofNat (digitsToNat (rest.filter (fun c => c != '_')))))
    else none
  | _ =>
    if validDigitsPart cs then
      some (Int.ofNat (digitsToNat (cs.filter (fun c => c != '_'))))
    else none

/-- `CDRParser._safe_int(value)` with the default default `0`:
`int(value) if value else default`, returning the default on empty
input or `ValueError`. -/
def pySafeInt (s : String) : Int :=
  if s = "" then 0 else (pyIntOfStr? s).getD 0

/-! ## Q.931 cause-code table (`CAUSE_CODES`) -/

/-- The `CAUSE_CODES` dict of the source, as an association list in
source order (keys are unique). -/
def CAUSE_CODES : List (Int × String) := [
  (0, "No error"),
  (1, "Unallocated/unassigned number"),
  (2, "No route to specified transit network"),
  (3, "No route to destination"),
  (4, "Send special information tone"),
  (5, "Misdialed trunk prefix"),
  (6, "Channel unacceptable"),
  (7, "Call awarded and being delivered"),
  (16, "Normal call clearing"),
  (17, "User busy"),
  (18, "No user responding"),
  (19, "No answer from user (user alerted)"),
  (20, "Subscriber absent"),
  (21, "Call rejected"),
  (22, "Number changed"),
  (23, "Redirection to new destination"),
  (25, "Exchange routing error"),
  (26, "Non-selected user clearing"),
  (27, "Destination out of order"),
  (28, "Invalid number format"),
  (29, "Facility rejected"),
  (30, "Response to STATUS ENQUIRY"),
  (31, "Normal, unspecified"),
  (34, "No circuit/channel available"),
  (38, "Network out of order"),
  (39, "Permanent frame mode connection out of service"),
  (40, "Permanent frame mode connection operational"),
  (41, "Temporary failure"),
  (42, "Switching equipment congestion"),
  (43, "Access information discarded"),
  (44, "Requested circuit/channel not available"),
  (46, "Precedence call blocked"),
  (47, "Resource unavailable, unspecified"),
  (49, "Quality of service not available"),
  (50, "Requested facility not subscribed"),
  (52, "Outgoing calls barred"),
  (54, "Incoming calls barred"),
  (57, "Bearer capability not authorized"),
  (58, "Bearer capability not presently available"),
  (62, "Inconsistency in designated outgoing access"),
  (63, "Service or option not available"),
  (65, "Bearer capability not implemented"),
  (66, "Channel type not implemented"),
  (69, "Requested facility not implemented"),
  (70, "Only restricted digital bearer capability available"),
  (79, "Service or option not implemented"),
  (81, "Invalid call reference value"),
  (82, "Identified channel does not exist"),
  (83, "Suspended call exists but call identity does not"),
  (84, "Call identity in use"),
  (85, "No call suspended"),
  (86, "Call having requested identity has been cleared"),
  (87, "User not member of CUG"),
  (88, "Incompatible destination"),
  (90, "Non-existent CUG"),
  (91, "Invalid transit network selection"),
  (95, "Invalid message, unspecified"),
  (96, "Mandatory IE missing"),
  (97, "Message type non-existent"),
  (98, "Message not compatible with call state"),
  (99, "IE non-existent or not implemented"),
  (100, "Invalid IE contents"),
  (101, "Message not compatible with call state"),
  (102, "Recovery on timer expiry"),
  (103, "Parameter non-existent or not implemented"),
  (110, "Message with unrecognized parameter discarded"),
  (111, "Protocol error, unspecified"),
  (127, "Interworking, unspecified"),
  (393216, "Normal clearing (Cisco)"),
  (458752, "Call rejected (Cisco)")]

/-- The `SUCCESS_CODES` set of the source. -/
def SUCCESS_CODES : List Int := [0, 16, 393216]

/-! ## `CDRRecord` and the failure classifier -/

/-- The `CDRRecord` dataclass. `datetime` fields are modelled as
epoch seconds, `none` for Python `None`. -/
structure CDRRecord where
  cdr_record_type : Int
  global_call_id : String
  date_time_origination : Option Int
  date_time_connect : Option Int
  date_time_disconnect : Option Int
  calling_party_number : String
  calling_party_unicode_name : String
  original_called_party_number : String
  final_called_party_number : String
  last_redirect_dn : String
  orig_cause_value : Int
  dest_cause_value : Int
  duration : Int
  orig_device_name : String
  dest_device_name : String
  orig_ip_addr : String
  dest_ip_addr : String
  calling_party_number_partition : String
  original_called_party_number_partition : String
  final_called_party_number_partition : String
  hunt_pilot_dn : String
  hunt_pilot_partition : String
  call_termination_on_behalf_of : Int
  orig_dtmf_method : Int
  dest_dtmf_method : Int
  mobile_calling_party_number : String
  mobile_called_party_number : String
  calling_party_device_type : String
  final_called_party_device_type : String
  orig_video_cap_bandwidth : Int
  dest_video_cap_bandwidth : Int
deriving DecidableEq

/-- The dataclass's field defaults (all fields default in the
source). -/
def defaultRecord : CDRRecord :=
  { cdr_record_type := 0
    global_call_id := ""
    date_time_origination := none
    date_time_connect := none
    date_time_disconnect := none
    calling_party_number := ""
    calling_party_unicode_name := ""
    original_called_party_number := ""
    final_called_party_number := ""
    last_redirect_dn := ""
    orig_cause_value := 0
    dest_cause_value := 0
    duration := 0
    orig_device_name := ""
    dest_device_name := ""
    orig_ip_addr := ""
    dest_ip_addr := ""
    calling_party_number_partition := ""
    original_called_party_number_partition := ""
    final_called_party_number_partition := ""
    hunt_pilot_dn := ""
    hunt_pilot_partition := ""
    call_termination_on_behalf_of := 0
    orig_dtmf_method := 0
    dest_dtmf_method := 0
    mobile_calling_party_number := ""
    mobile_called_party_number := ""
    calling_party_device_type := ""
    final_called_party_device_type := ""
    orig_video_cap_bandwidth := 0
    dest_video_cap_bandwidth := 0 }

/-- `CDRRecord.is_failed`: duration zero and either cause code outside
`SUCCESS_CODES`, with the source's early-return structure. -/
def is_failed (r : CDRRecord) : Bool :=
  if r.duration = 0 then
    if r.dest_cause_value ∉ SUCCESS_CODES then true
    else if r.orig_cause_value ∉ SUCCESS_CODES then true
    else false
  else false

/-- `CDRRecord.failure_reason`: look up the terminating cause when
nonzero, else the originating cause, in `CAUSE_CODES`; unknown codes
format as an interpolated message. -/
def failure_reason (r : CDRRecord) : String :=
  let cause := if r.dest_cause_value ≠ 0 then r.dest_cause_value else r.orig_cause_value
  match CAUSE_CODES.lookup cause with
  | some text => text
  | none => "Unknown cause code: " ++ toString cause

/-- `CDRRecord.primary_cause_code`: the terminating cause when
nonzero, else the originating cause. -/
def primary_cause_code (r : CDRRecord) : Int :=
  if r.dest_cause_value ≠ 0 then r.dest_cause_value else r.orig_cause_value

/-- Text the spec assigns to a cause code: the `CAUSE_CODES` entry,
or the unknown-code message. -/
def causeText (c : Int) : String :=
  match CAUSE_CODES.lookup c with
  | some text => text
  | none => "Unknown cause code: " ++ toString c

/-! ## Record decoding (`CDRParser`) -/

/-- The `CDRParser.CDR_FIELDS` dict: ordinal-to-name mapping, as an
association list in source (insertion) order. -/
def CDR_FIELDS : List (Nat × String) := [
  (0, "cdrRecordType"),
  (1, "globalCallID_callManagerId"),
  (2, "globalCallID_callId"),
  (3, "origLegCallIdentifier"),
  (4, "dateTimeOrigination"),
  (5, "origNodeId"),
  (6, "origSpan"),
  (7, "origIpAddr"),
  (8, "callingPartyNumber"),
  (9, "callingPartyUnicodeLoginUserID"),
  (10, "origCause_location"),
  (11, "origCause_value"),
  (12, "origPrecedenceLevel"),
  (13, "origMediaTransportAddress_IP"),
  (14, "origMediaTransportAddress_Port"),
  (15, "origMediaCap_payloadCapability"),
  (16, "origMediaCap_maxFramesPerPacket"),
  (17, "origMediaCap_g723BitRate"),
  (18, "origVideoCap_Codec"),
  (19, "origVideoCap_Bandwidth"),
  (20, "origVideoCap_Resolution"),
  (21, "origVideoTransportAddress_IP"),
  (22, "origVideoTransportAddress_Port"),
  (23, "origRSVPAudioStat"),
  (24, "origRSVPVideoStat"),
  (25, "destLegCallIdentifier"),
  (26, "destNodeId"),
  (27, "destSpan"),
  (28, "destIpAddr"),
  (29, "originalCalledPartyNumber"),
  (30, "finalCalledPartyNumber"),
  (31, "finalCalledPartyUnicodeLoginUserID"),
  (32, "destCause_location"),
  (33, "destCause_value"),
  (34, "destPrecedenceLevel"),
  (35, "destMediaTransportAddress_IP"),
  (36, "destMediaTransportAddress_Port"),
  (37, "destMediaCap_payloadCapability"),
  (38, "destMediaCap_maxFramesPerPacket"),
  (39, "destMediaCap_g723BitRate"),
  (40, "destVideoCap_Codec"),
  (41, "destVideoCap_Bandwidth"),
  (42, "destVideoCap_Resolution"),
  (43, "destVideoTransportAddress_IP"),
  (44, "destVideoTransportAddress_Port"),
  (45, "destRSVPAudioStat"),
  (46, "destRSVPVideoStat"),
  (47, "dateTimeConnect"),
  (48, "dateTimeDisconnect"),
  (49, "lastRedirectDn"),
  (50, "pkid"),
  (51, "originalCalledPartyNumberPartition"),
  (52, "callingPartyNumberPartition"),
  (53, "finalCalledPartyNumberPartition"),
  (54, "lastRedirectDnPartition"),
  (55, "duration"),
  (56, "origDeviceName"),
  (57, "destDeviceName"),
  (101, "huntPilotDN"),
  (102, "huntPilotPartition")]

/-- `CDRParser._get_field`: scan `CDR_FIELDS` in order for the first
entry whose name matches and whose ordinal is in range; return the
stripped value there (empty string for a falsy value), else `""`. -/
def get_field (row : List String) (name : String) : String :=
  match CDR_FIELDS.find? (fun p => p.2 == name && decide (p.1 < row.length)) with
  | some p =>
    let v := row.getD p.1 ""
    if v = "" then "" else pyStripStr v
  | none => ""

/-- `CDRParser._get_field_int`. -/
def get_field_int (row : List String) (name : String) : Int :=
  pySafeInt (get_field row name)

/-- `CDRParser._parse_timestamp`: epoch string to optional time;
empty means epoch `0`; only strictly positive epochs give a value;
a parse failure gives `none`. -/
def parse_timestamp (s : String) : Option Int :=
  match (if s = "" then some 0 else pyIntOfStr? s) with
  | none => none
  | some epoch => if 0 < epoch then some epoch else none

/-- The `CDRRecord(...)` construction inside `CDRParser.parse_file`,
for one raw row. -/
def buildRecord (row : List String) (record_type : Int) : CDRRecord :=
  { defaultRecord with
    cdr_record_type := record_type
    global_call_id :=
      get_field row "globalCallID_callManagerId" ++ "-" ++ get_field row "globalCallID_callId"
    date_time_origination := parse_timestamp (get_field row "dateTimeOrigination")
    date_time_connect := parse_timestamp (get_field row "dateTimeConnect")
    date_time_disconnect := parse_timestamp (get_field row "dateTimeDisconnect")
    calling_party_number := get_field row "callingPartyNumber"
    original_called_party_number := get_field row "originalCalledPartyNumber"
    final_called_party_number := get_field row "finalCalledPartyNumber"
    last_redirect_dn := get_field row "lastRedirectDn"
    orig_cause_value := get_field_int row "origCause_value"
    dest_cause_value := get_field_int row "destCause_value"
    duration := get_field_int row "duration"
    orig_device_name := get_field row "origDeviceName"
    dest_device_name := get_field row "destDeviceName"
    orig_ip_addr := get_field row "origIpAddr"
    dest_ip_addr := get_field row "destIpAddr"
    calling_party_number_partition := get_field row "callingPartyNumberPartition"
    original_called_party_number_partition := get_field row "originalCalledPartyNumberPartition"
    final_called_party_number_partition := get_field row "finalCalledPartyNumberPartition"
    hunt_pilot_dn := get_field row "huntPilotDN"
    hunt_pilot_partition := get_field row "huntPilotPartition" }

/-- The per-row body of `CDRParser.parse_file`: `none` when the row
is skipped (short row, foreign record type, or absent origination
time), `some record` when a record is kept. -/
def processRow (row : List String) : Option CDRRecord :=
  if row.length < 50 then none
  else if pySafeInt (row.headD "0") ≠ 1 then none
  else if (buildRecord row (pySafeInt (row.headD "0"))).date_time_origination.isSome then
    some (buildRecord row (pySafeInt (row.headD "0")))
  else none

/-- The loop of `CDRParser.parse_file` over the rows of a file:
returns the kept records in order together with the count of rows
scanned.  Total by construction: no row aborts the file. -/
def parse_rows : List (List String) → List CDRRecord × Nat
  | [] => ([], 0)
  | row :: rest =>
    let tail := parse_rows rest
    match processRow row with
    | some record => (record :: tail.1, tail.2 + 1)
    | none => (tail.1, tail.2 + 1)

/-! ## Database model (`CDRDatabase`)

The `failed_calls` and `processed_files` SQLite tables are modelled
as lists of rows in insertion order.  Stored timestamps are epoch
seconds (`Option Int`, `none` modelling SQL `NULL`). -/

/-- One row of the `failed_calls` table. -/
structure FailedRow where
  global_call_id : String
  date_time_origination : Option Int
  calling_party_number : String
  original_called_party_number : String
  final_called_party_number : String
  orig_cause_value : Int
  dest_cause_value : Int
  failure_reason : String
  duration : Int
  orig_device_name : String
  dest_device_name : String
  orig_ip_addr : String
  dest_ip_addr : String
  file_hash : String
deriving DecidableEq

/-- One row of the `processed_files` table. -/
structure ProcessedFile where
  filename : String
  file_hash : String
  records_processed : Nat
  failed_calls_found : Nat
deriving DecidableEq

/-- The database state: both tables. -/
structure DBState where
  failed_calls : List FailedRow
  processed_files : List ProcessedFile
deriving DecidableEq

/-- `CDRDatabase.is_file_processed`: a marker with this filename and
this hash exists. -/
def is_file_processed (st : DBState) (filename file_hash : String) : Bool :=
  st.processed_files.any (fun m => m.filename == filename && m.file_hash == file_hash)

/-- `CDRDatabase.mark_file_processed`: `INSERT OR REPLACE` keyed by
the `filename UNIQUE` constraint — any marker with the same filename
is replaced. -/
def mark_file_processed (st : DBState) (filename file_hash : String)
    (records_processed failed_calls_found : Nat) : DBState :=
  { st with processed_files :=
      st.processed_files.filter (fun m => m.filename ≠ filename) ++
        [{ filename := filename, file_hash := file_hash,
           records_processed := records_processed,
           failed_calls_found := failed_calls_found }] }

/-- The row `CDRDatabase.insert_failed_call` would insert for a
record: the stored projection, with `failure_reason` computed at
insert time. -/
def rowOfRecord (record : CDRRecord) (file_hash : String) : FailedRow :=
  { global_call_id := record.global_call_id
    date_time_origination := record.date_time_origination
    calling_party_number := record.calling_party_number
    original_called_party_number := record.original_called_party_number
    final_called_party_number := record.final_called_party_number
    orig_cause_value := record.orig_cause_value
    dest_cause_value := record.dest_cause_value
    failure_reason := failure_reason record
    duration := record.duration
    orig_device_name := record.orig_device_name
    dest_device_name := record.dest_device_name
    orig_ip_addr := record.orig_ip_addr
    dest_ip_addr := record.dest_ip_addr
    file_hash := file_hash }

/-- The `UNIQUE(global_call_id, date_time_origination)` constraint
check for an incoming record: SQL `NULL` is never equal, so a `none`
timestamp never conflicts. -/
def keyConflict (st : DBState) (gcid : String) (t : Option Int) : Bool :=
  match t with
  | none => false
  | some tv =>
    st.failed_calls.any
      (fun r => r.global_call_id == gcid && r.date_time_origination == some tv)

/-- `CDRDatabase.insert_failed_call`: `INSERT OR IGNORE` under the
natural-key unique constraint — on conflict the state is returned
unchanged, no error is raised. -/
def insert_failed_call (st : DBState) (record : CDRRecord) (file_hash : String) : DBState :=
  if keyConflict st record.global_call_id record.date_time_origination then st
  else { st with failed_calls := st.failed_calls ++ [rowOfRecord record file_hash] }

/-- The per-file body of `CDRReporter.fetch_and_process_cdr_files`:
skip a file already marked processed under the same name and hash,
otherwise parse it, insert its failed records and write its marker. -/
def process_file (st : DBState) (filename file_hash : String)
    (rows : List (List String)) : DBState :=
  if is_file_processed st filename file_hash then st
  else
    let parsed := parse_rows rows
    let records := parsed.1
    let st1 := records.foldl
      (fun s r => if is_failed r then insert_failed_call s r file_hash else s) st
    let failed_count := records.countP (fun r => is_failed r)
    mark_file_processed st1 filename file_hash records.length failed_count

/-! ## Aggregation (`CDRDatabase.get_failure_statistics`) and
retention (`CDRDatabase.cleanup_old_records`) -/

/-- SQL `date_time_origination >= cutoff` on a nullable column:
`NULL` compares false. -/
def inWindow (cutoff : Int) (r : FailedRow) : Bool :=
  match r.date_time_origination with
  | none => false
  | some t => cutoff ≤ t

/-- The window filter `WHERE date_time_origination >= cutoff` shared
by all groupings of `get_failure_statistics`. -/
def window_rows (st : DBState) (cutoff : Int) : List FailedRow :=
  st.failed_calls.filter (inWindow cutoff)

/-- `SELECT COUNT(*) ... WHERE date_time_origination >= cutoff`. -/
def total_failed (st : DBState) (cutoff : Int) : Nat :=
  (window_rows st cutoff).length

/-- One bucket of the cause-code histogram. -/
structure CauseBucket where
  code : Int
  reason : String
  count : Nat
deriving DecidableEq

/-- Insert a bucket into a list sorted by count descending, before
the first bucket of smaller or equal count. -/
def insertDesc (b : CauseBucket) : List CauseBucket → List CauseBucket
  | [] => [b]
  | c :: cs => if c.count ≤ b.count then b :: c :: cs else c :: insertDesc b cs

/-- Sort buckets by count descending (`ORDER BY count DESC`; SQLite
fixes no tie order, this model is deterministic). -/
def sortDesc : List CauseBucket → List CauseBucket
  | [] => []
  | b :: bs => insertDesc b (sortDesc bs)

/-- The `GROUP BY dest_cause_value` histogram of
`get_failure_statistics`: one bucket per distinct terminating cause
value among the window rows, with the `failure_reason` of a
representative row and the group count, ordered by count descending. -/
def by_cause (st : DBState) (cutoff : Int) : List CauseBucket :=
  sortDesc ((((window_rows st cutoff).map (fun r => r.dest_cause_value)).dedup).map (fun d =>
    { code := d
      reason := (((window_rows st cutoff).find? (fun r => r.dest_cause_value == d)).map
        (fun r => r.failure_reason)).getD ""
      count := (window_rows st cutoff).countP (fun r => r.dest_cause_value == d) }))

/-- The preferred cause of a stored row, by the spec's preference
rule (terminating when nonzero, else originating). -/
def primaryOfRow (r : FailedRow) : Int :=
  if r.dest_cause_value ≠ 0 then r.dest_cause_value else r.orig_cause_value

/-- Modelled from the spec: the cause histogram as the spec describes
it, bucketing each window row by its primary cause code — the
terminating cause when nonzero, otherwise the originating cause. -/
def by_cause_primary (st : DBState) (cutoff : Int) : List CauseBucket :=
  sortDesc ((((window_rows st cutoff).map primaryOfRow).dedup).map (fun d =>
    { code := d
      reason := (((window_rows st cutoff).find? (fun r => primaryOfRow r == d)).map
        (fun r => r.failure_reason)).getD ""
      count := (window_rows st cutoff).countP (fun r => primaryOfRow r == d) }))

/-- Python `x or 1` on a nonnegative count (`stats['total_failed_calls'] or 1`
in `ReportGenerator.generate_pdf_report`). -/
def pyOrDefault (n fallback : Nat) : Nat :=
  if n = 0 then fallback else n

/-- The percentage computed for one cause bucket in
`generate_pdf_report`: `(item['count'] / total) * 100` with `total`
replaced by `1` when zero.  Rationals model the exact value. -/
def bucket_pct (total count : Nat) : ℚ :=
  (count : ℚ) / ((pyOrDefault total 1 : Nat) : ℚ) * 100

/-- Rounding to one decimal place, as `f-string` `.1f` formatting
does on the non-tie values that arise here. -/
def roundTenth (q : ℚ) : ℚ :=
  ((round (q * 10) : ℤ) : ℚ) / 10

/-- SQL `date_time_origination < cutoff` on the nullable column:
`NULL` compares false, so `NULL` rows are never deleted. -/
def olderThan (cutoff : Int) (r : FailedRow) : Bool :=
  match r.date_time_origination with
  | none => false
  | some t => t < cutoff

/-- `CDRDatabase.cleanup_old_records`: delete the rows strictly older
than `now - retention_days` days and return `cursor.rowcount`, the
number of rows deleted. -/
def cleanup_old_records (st : DBState) (now retention_days : Int) : DBState × Nat :=
  ({ st with failed_calls :=
      st.failed_calls.filter (fun r => !(olderThan (now - retention_days * 86400) r)) },
   st.failed_calls.countP (olderThan (now - retention_days * 86400)))

example : (parse_rows [List.replicate 40 ""]).1 = [] ∧ (parse_rows [List.replicate 40 ""]).2 = 1 := by
  exact ⟨rfl, rfl⟩
example : (parse_rows [["1", "7", "9", "", "100"] ++ List.replicate 45 ""]).1.length = 1 := by decide
example : ((parse_rows [["1", "7", "9", "", "100"] ++ List.replicate 45 ""]).1.headD defaultRecord).global_call_id = "7-9" := by decide
example : ((parse_rows [["1", "7", "9", "", "100"] ++ List.replicate 45 ""]).1.headD defaultRecord).date_time_origination = some 100 := by decide
example : (parse_rows [["1", "7", "9", "", "0"] ++ List.replicate 45 ""]).1 = [] := by decide
example : parse_timestamp "0" = none := by decide
example : parse_timestamp "abc" = none := by decide
example : parse_timestamp "" = none := by decide

example : pySafeInt "17" = 17 := by decide
example : pySafeInt "" = 0 := by decide
example : pySafeInt "abc" = 0 := by decide
example : pySafeInt "-5" = -5 := by decide
example : pySafeInt " 12 " = 12 := by decide
example : causeText 17 = "User busy" := by decide
example : causeText 24 = "Unknown cause code: 24" := by decide
example : is_failed { defaultRecord with duration := 0, dest_cause_value := 17 } = true := by decide
example : is_failed { defaultRecord with duration := 120, dest_cause_value := 17 } = false := by decide

/-! ## Concrete states used by witnesses and counterexamples -/

/-- Shorthand for a stored failed-call row; unnamed table columns are
blank. -/
def mkFailedRow (gcid : String) (t : Option Int) (oc dc : Int) (reason : String) : FailedRow :=
  { global_call_id := gcid
    date_time_origination := t
    calling_party_number := ""
    original_called_party_number := ""
    final_called_party_number := ""
    orig_cause_value := oc
    dest_cause_value := dc
    failure_reason := reason
    duration := 0
    orig_device_name := ""
    dest_device_name := ""
    orig_ip_addr := ""
    dest_ip_addr := ""
    file_hash := "" }

/-- A stored row whose terminating cause is zero but whose
originating cause is 17: its primary cause is 17. -/
def c5row : FailedRow := mkFailedRow "2-1" (some 100) 17 0 "User busy"

/-- Database holding only `c5row`. -/
def c5st : DBState := { failed_calls := [c5row], processed_files := [] }

/-- The bucket `by_cause` actually produces for `c5st`. -/
def c5bucket : CauseBucket := { code := 0, reason := "User busy", count := 1 }

/-- Database with three failed entries: two with terminating cause
17, one with 19 (the spec's snapshot example). -/
def exSt : DBState :=
  { failed_calls :=
      [mkFailedRow "1-1" (some 100) 0 17 "User busy",
       mkFailedRow "1-2" (some 200) 0 17 "User busy",
       mkFailedRow "1-3" (some 300) 0 19 "No answer from user (user alerted)"]
    processed_files := [] }

/-- A marker for a processed file. -/
def c3marker : ProcessedFile :=
  { filename := "cdr_a", file_hash := "h1", records_processed := 5, failed_calls_found := 2 }

/-- Database in which `cdr_a` is already marked processed. -/
def c3st : DBState := { failed_calls := [], processed_files := [c3marker] }

/-- A stored failed call with key `("3-3", 500)`. -/
def c4row : FailedRow := mkFailedRow "3-3" (some 500) 0 17 "User busy"

/-- Database holding only `c4row`. -/
def c4st : DBState := { failed_calls := [c4row], processed_files := [] }

/-- A decoded record with the same natural key as `c4row`. -/
def c4rec : CDRRecord :=
  { defaultRecord with
    global_call_id := "3-3", date_time_origination := some 500, dest_cause_value := 17 }

/-- A row strictly older than the retention cutoff used below. -/
def c9rowOld : FailedRow := mkFailedRow "9-1" (some 395199) 0 17 "User busy"

/-- A row exactly at the retention cutoff used below. -/
def c9rowBoundary : FailedRow := mkFailedRow "9-2" (some 395200) 0 17 "User busy"

/-- Database holding the old row and the boundary row. -/
def c9st : DBState := { failed_calls := [c9rowOld, c9rowBoundary], processed_files := [] }

/-- Record with duration 0, originating cause 17 and terminating
cause 16 (a success code). -/
def c10rec : CDRRecord :=
  { defaultRecord with duration := 0, orig_cause_value := 17, dest_cause_value := 16 }

/-- Record with a nonzero terminating cause, for the C10 witness. -/
def c10wrec : CDRRecord := { defaultRecord with dest_cause_value := 17 }

/-- Record with nonzero duration and a failing cause code. -/
def c1rec : CDRRecord := { defaultRecord with duration := 120, dest_cause_value := 17 }

/-- Record with a nonzero terminating cause, for the C2 witness. -/
def c2rec : CDRRecord := { defaultRecord with dest_cause_value := 17, orig_cause_value := 19 }

/-- A well-formed 50-field call-leg row with origination epoch 100. -/
def goodRow : List String := ["1", "7", "9", "", "100"] ++ List.replicate 45 ""

/-- A well-formed 50-field call-leg row whose origination field is
the literal "0". -/
def badTimestampRow : List String := ["1", "7", "9", "", "0"] ++ List.replicate 45 ""

/-! ## Helper lemmas about the histogram sort -/

theorem mem_insertDesc {x b : CauseBucket} {l : List CauseBucket} :
    x ∈ insertDesc b l ↔ x = b ∨ x ∈ l := by
  induction l with
  | nil => simp [insertDesc]
  | cons c cs ih =>
    rw [insertDesc]
    by_cases h : c.count ≤ b.count
    · simp [h]
    · simp [h, ih]
      tauto

theorem sorted_insertDesc {b : CauseBucket} {l : List CauseBucket}
    (h : List.Sorted (fun x y => y.count ≤ x.count) l) :
    List.Sorted (fun x y => y.count ≤ x.count) (insertDesc b l) := by
  induction l with
  | nil => simp [insertDesc]
  | cons c cs ih =>
    rw [insertDesc]
    rcases List.sorted_cons.mp h with ⟨hc, hcs⟩
    by_cases hcb : c.count ≤ b.count
    · rw [if_pos hcb]
      refine List.sorted_cons.mpr ⟨?_, h⟩
      intro x hx
      rcases List.mem_cons.mp hx with rfl | hx
      · exact hcb
      · exact le_trans (hc x hx) hcb
    · rw [if_neg hcb]
      refine List.sorted_cons.mpr ⟨?_, ih hcs⟩
      intro x hx
      rcases mem_insertDesc.mp hx with rfl | hx
      · omega
      · exact hc x hx

theorem sorted_sortDesc (l : List CauseBucket) :
    List.Sorted (fun x y => y.count ≤ x.count) (sortDesc l) := by
  induction l with
  | nil => simp [sortDesc]
  | cons b bs ih => exact sorted_insertDesc ih

theorem mem_sortDesc {x : CauseBucket} {l : List CauseBucket} :
    x ∈ sortDesc l ↔ x ∈ l := by
  induction l with
  | nil => simp [sortDesc]
  | cons b bs ih =>
    rw [sortDesc, mem_insertDesc, ih]
    simp

/-- A record `processRow` keeps always has a present origination
time. -/
theorem processRow_origination {row : List String} {rec : CDRRecord}
    (h : processRow row = some rec) : rec.date_time_origination ≠ none := by
  unfold processRow at h
  split_ifs at h with h1 h2 h3
  rw [Option.some.injEq] at h
  rw [← h]
  exact Option.ne_none_iff_isSome.mpr h3

/-! ## Claim theorems -/

/-- C1: for every decoded record, `is_failed` is true iff the
duration is zero and at least one of the two cause codes lies outside
the success set `{0, 16, 393216}`; in particular a record with
nonzero duration is never classified failed, whatever its cause
codes. -/
theorem is_failed_success_set_spec : ∀ r : CDRRecord,
    (is_failed r = true ↔
      (r.duration = 0 ∧
        (r.dest_cause_value ∉ SUCCESS_CODES ∨ r.orig_cause_value ∉ SUCCESS_CODES))) ∧
    (r.duration ≠ 0 → is_failed r = false) := by
  intro r
  constructor
  · unfold is_failed
    split_ifs with h1 h2 h3 <;> simp_all
  · intro h
    unfold is_failed
    rw [if_neg h]

/-- Witness for C1 at a concrete record: duration 120 with failing
cause 17 is not classified failed. -/
theorem is_failed_success_set_spec_witness : is_failed c1rec = false :=
  (is_failed_success_set_spec c1rec).2 (by decide)

/-- C2: the reason string is the cause-code table's text for the
terminating cause when that code is nonzero, otherwise for the
originating cause; a code with no table entry formats as
`"Unknown cause code: <code>"`. -/
theorem failure_reason_selection_spec : ∀ r : CDRRecord,
    (r.dest_cause_value ≠ 0 → failure_reason r = causeText r.dest_cause_value) ∧
    (r.dest_cause_value = 0 → failure_reason r = causeText r.orig_cause_value) ∧
    (∀ c : Int,
      (∃ text, CAUSE_CODES.lookup c = some text ∧ causeText c = text) ∨
      (CAUSE_CODES.lookup c = none ∧
        causeText c = "Unknown cause code: " ++ toString c)) := by
  intro r
  refine ⟨?_, ?_, ?_⟩
  · intro h
    simp [failure_reason, causeText, h]
  · intro h
    simp [failure_reason, causeText, h]
  · intro c
    unfold causeText
    cases hc : CAUSE_CODES.lookup c with
    | none => exact Or.inr ⟨rfl, rfl⟩
    | some text => exact Or.inl ⟨text, rfl, rfl⟩

/-- Witness for C2 at a concrete record with nonzero terminating
cause. -/
theorem failure_reason_selection_spec_witness :
    failure_reason c2rec = causeText c2rec.dest_cause_value :=
  (failure_reason_selection_spec c2rec).1 (by decide)

/-- C3: a file already marked processed under the same filename and
the same fingerprint is skipped entirely — re-running ingestion over
it leaves the database state (failed-call rows and markers, counts
included) unchanged. -/
theorem reprocess_same_file_noop :
    ∀ (st : DBState) (filename file_hash : String) (rows : List (List String)),
    is_file_processed st filename file_hash = true →
    process_file st filename file_hash rows = st := by
  intro st fn fh rows h
  unfold process_file
  rw [if_pos h]

/-- Witness for C3: re-processing `cdr_a` with its recorded hash is a
no-op on a concrete state. -/
theorem reprocess_same_file_noop_witness :
    process_file c3st "cdr_a" "h1" [List.replicate 50 "x"] = c3st :=
  reprocess_same_file_noop c3st "cdr_a" "h1" [List.replicate 50 "x"] (by decide)

/-- C4: inserting a failed-call record whose natural key
(call identifier, origination timestamp) already exists leaves the
store completely unchanged — no error, no update, no second row. -/
theorem duplicate_insert_noop :
    ∀ (st : DBState) (record : CDRRecord) (file_hash : String) (t : Int),
    record.date_time_origination = some t →
    (∃ r ∈ st.failed_calls,
      r.global_call_id = record.global_call_id ∧ r.date_time_origination = some t) →
    insert_failed_call st record file_hash = st := by
  intro st record fh t ht hex
  rcases hex with ⟨r, hr, hg, hd⟩
  unfold insert_failed_call
  have hconf : keyConflict st record.global_call_id record.date_time_origination = true := by
    unfold keyConflict
    rw [ht]
    exact List.any_eq_true.mpr ⟨r, hr, by simp [hg, hd]⟩
  rw [if_pos hconf]

/-- Witness for C4: re-inserting the record with key `("3-3", 500)`
into a store already holding that key changes nothing. -/
theorem duplicate_insert_noop_witness : insert_failed_call c4st c4rec "h2" = c4st :=
  duplicate_insert_noop c4st c4rec "h2" 500 (by decide)
    ⟨c4row, by decide, by decide, by decide⟩

/-- C10: `failure_reason` and `primary_cause_code` select the
terminating cause whenever it is nonzero, even when it is a success
code; the concrete record (duration 0, orig 17, dest 16) is failed
yet reports "Normal call clearing" with primary code 16; both causes
zero report "No error". -/
theorem dest_preference_spec :
    (∀ r : CDRRecord, r.dest_cause_value ≠ 0 →
      primary_cause_code r = r.dest_cause_value ∧
      failure_reason r = causeText r.dest_cause_value) ∧
    (is_failed c10rec = true ∧ failure_reason c10rec = "Normal call clearing" ∧
      primary_cause_code c10rec = 16) ∧
    (∀ r : CDRRecord, r.dest_cause_value = 0 → r.orig_cause_value = 0 →
      failure_reason r = "No error") := by
  refine ⟨?_, ⟨by decide, by decide, by decide⟩, ?_⟩
  · intro r h
    constructor
    · simp [primary_cause_code, h]
    · simp [failure_reason, causeText, h]
  · intro r h1 h2
    simp [failure_reason, h1, h2]
    decide

/-- Witness for C10 at a concrete record with terminating cause 17. -/
theorem dest_preference_spec_witness :
    primary_cause_code c10wrec = c10wrec.dest_cause_value ∧
    failure_reason c10wrec = causeText c10wrec.dest_cause_value :=
  dest_preference_spec.1 c10wrec (by decide)

/-- C5 counterexample: `c5row` is a window row whose primary cause
code is 17, yet the histogram the code computes buckets it under its
terminating cause 0 — bucketing by primary cause (as the claim
states) would produce bucket code 17 instead. -/
theorem by_cause_primary_counterexample :
    c5row ∈ window_rows c5st 0 ∧
    primaryOfRow c5row = 17 ∧
    (by_cause c5st 0).map CauseBucket.code = [0] ∧
    (by_cause_primary c5st 0).map CauseBucket.code = [17] ∧
    (by_cause c5st 0).map CauseBucket.code ≠ (by_cause_primary c5st 0).map CauseBucket.code := by
  refine ⟨by decide, by decide, by decide, by decide, by decide⟩

/-- C5 (amended): the cause-code histogram buckets each window row by
its terminating (dest) cause code alone — even when that code is
zero, the originating cause is not consulted — and lists buckets as
(code, reason, count) ordered by count descending. -/
theorem by_cause_dest_grouping :
    ∀ (st : DBState) (cutoff : Int),
    List.Sorted (fun a b => b.count ≤ a.count) (by_cause st cutoff) ∧
    (∀ b ∈ by_cause st cutoff,
      b.count = (window_rows st cutoff).countP (fun r => r.dest_cause_value == b.code) ∧
      ∃ r ∈ window_rows st cutoff, r.dest_cause_value = b.code) ∧
    (∀ r ∈ window_rows st cutoff,
      ∃ b ∈ by_cause st cutoff, b.code = r.dest_cause_value) := by
  intro st cutoff
  refine ⟨?_, ?_, ?_⟩
  · unfold by_cause
    exact sorted_sortDesc _
  · intro b hb
    unfold by_cause at hb
    rw [mem_sortDesc] at hb
    rcases List.mem_map.mp hb with ⟨d, hd, hbd⟩
    constructor
    · rw [← hbd]
    · rcases List.mem_map.mp (List.mem_dedup.mp hd) with ⟨r, hr, hrd⟩
      exact ⟨r, hr, by rw [← hbd]; exact hrd⟩
  · intro r hr
    have hd : r.dest_cause_value ∈
        ((window_rows st cutoff).map (fun x => x.dest_cause_value)).dedup :=
      List.mem_dedup.mpr (List.mem_map.mpr ⟨r, hr, rfl⟩)
    refine ⟨{ code := r.dest_cause_value
              reason := (((window_rows st cutoff).find?
                (fun x => x.dest_cause_value == r.dest_cause_value)).map
                (fun x => x.failure_reason)).getD ""
              count := (window_rows st cutoff).countP
                (fun x => x.dest_cause_value == r.dest_cause_value) }, ?_, rfl⟩
    unfold by_cause
    rw [mem_sortDesc]
    exact List.mem_map.mpr ⟨r.dest_cause_value, hd, rfl⟩

/-- Witness for the amended C5 at the concrete one-row state: the
bucket the histogram produces carries the count of rows sharing its
terminating cause code. -/
theorem by_cause_dest_grouping_witness :
    c5bucket.count = (window_rows c5st 0).countP (fun r => r.dest_cause_value == c5bucket.code) :=
  ((by_cause_dest_grouping c5st 0).2.1 c5bucket (by decide)).1

/-- C6: each cause bucket's percentage is
`count / max(total, 1) * 100`, the guard making the denominator
nonzero when the window has no failed calls; on the spec's
three-entry example the histogram is `[(17, 2), (19, 1)]` with
percentages rounding to 66.7 and 33.3. -/
theorem bucket_pct_spec :
    (∀ total count : Nat,
      bucket_pct total count = (count : ℚ) / ((max total 1 : Nat) : ℚ) * 100) ∧
    (∀ total : Nat, pyOrDefault total 1 ≠ 0) ∧
    total_failed exSt 0 = 3 ∧
    (by_cause exSt 0).map (fun b => (b.code, b.reason, b.count)) =
      [(17, "User busy", 2), (19, "No answer from user (user alerted)", 1)] ∧
    roundTenth (bucket_pct 3 2) = 667 / 10 ∧
    roundTenth (bucket_pct 3 1) = 333 / 10 := by
  have hp2 : bucket_pct 3 2 = 200 / 3 := by
    rw [bucket_pct]
    norm_num [pyOrDefault]
  have hp1 : bucket_pct 3 1 = 100 / 3 := by
    rw [bucket_pct]
    norm_num [pyOrDefault]
  have hr2 : round ((200 : ℚ) / 3 * 10) = 667 := by
    rw [round_eq, Int.floor_eq_iff]
    norm_num
  have hr1 : round ((100 : ℚ) / 3 * 10) = 333 := by
    rw [round_eq, Int.floor_eq_iff]
    norm_num
  refine ⟨?_, ?_, by decide, by decide,
    by rw [roundTenth, hp2, hr2]; norm_num,
    by rw [roundTenth, hp1, hr1]; norm_num⟩
  · intro total count
    cases total with
    | zero => rfl
    | succ n =>
      have h1 : pyOrDefault (n + 1) 1 = n + 1 := by
        unfold pyOrDefault
        rw [if_neg (Nat.succ_ne_zero n)]
      have h2 : max (n + 1) 1 = n + 1 := by omega
      rw [bucket_pct, h1, h2]
  · intro total
    unfold pyOrDefault
    split_ifs with h
    · exact one_ne_zero
    · exact h

/-- C7: a row with fewer than 50 fields, or whose record-type field
does not parse to 1, contributes no record, still increments the
scanned-row count, and leaves decoding of the remaining rows
untouched. -/
theorem skip_short_or_foreign_rows :
    ∀ (row : List String) (rest : List (List String)),
    (row.length < 50 ∨ pySafeInt (row.headD "0") ≠ 1) →
    parse_rows (row :: rest) = ((parse_rows rest).1, (parse_rows rest).2 + 1) := by
  intro row rest h
  have hnone : processRow row = none := by
    unfold processRow
    rcases h with h | h
    · rw [if_pos h]
    · by_cases hlen : row.length < 50
      · rw [if_pos hlen]
      · rw [if_neg hlen, if_pos h]
  rw [parse_rows, hnone]

/-- Witness for C7: a single 40-field row yields no records and a
scanned count of 1. -/
theorem skip_short_or_foreign_rows_witness :
    parse_rows [List.replicate 40 ""] =
      ((parse_rows ([] : List (List String))).1, (parse_rows ([] : List (List String))).2 + 1) :=
  skip_short_or_foreign_rows (List.replicate 40 "") [] (Or.inl (by decide))

/-- C8: an origination field of "0" or an unparsable one decodes to
an absent (`none`) time, such a row yields no record, and every
record the decoder emits has a present origination time. -/
theorem absent_origination_spec :
    parse_timestamp "0" = none ∧
    (∀ s : String, s ≠ "" → pyIntOfStr? s = none → parse_timestamp s = none) ∧
    (∀ row : List String,
      parse_timestamp (get_field row "dateTimeOrigination") = none → processRow row = none) ∧
    (∀ (rows : List (List String)) (r : CDRRecord),
      r ∈ (parse_rows rows).1 → r.date_time_origination ≠ none) := by
  refine ⟨by decide, ?_, ?_, ?_⟩
  · intro s hs hp
    unfold parse_timestamp
    rw [if_neg hs, hp]
  · intro row h
    have hb : ∀ rt : Int, (buildRecord row rt).date_time_origination = none := by
      intro rt
      rw [buildRecord]
      exact h
    unfold processRow
    split_ifs with h1 h2 h3
    · rfl
    · rfl
    · rw [hb] at h3
      exact absurd h3 (by simp)
    · rfl
  · intro rows
    induction rows with
    | nil =>
      intro r hr
      rw [parse_rows] at hr
      exact absurd hr (List.not_mem_nil r)
    | cons row rest ih =>
      intro r hr
      rw [parse_rows] at hr
      cases hp : processRow row with
      | none =>
        rw [hp] at hr
        exact ih r hr
      | some rec =>
        rw [hp] at hr
        rcases List.mem_cons.mp hr with rfl | hr
        · exact processRow_origination hp
        · exact ih r hr

/-- Witness for C8: the literal "abc" timestamp is absent, a
well-formed row with origination "0" is dropped, and the record
decoded from a well-formed row has a present origination time. -/
theorem absent_origination_spec_witness :
    parse_timestamp "abc" = none ∧
    processRow badTimestampRow = none ∧
    ((parse_rows [goodRow]).1.headD defaultRecord).date_time_origination ≠ none :=
  ⟨absent_origination_spec.2.1 "abc" (by decide) (by decide),
   absent_origination_spec.2.2.1 badTimestampRow (by decide),
   absent_origination_spec.2.2.2 [goodRow]
     ((parse_rows [goodRow]).1.headD defaultRecord) (by decide)⟩

theorem countP_add_length_filter_not {α : Type} (p : α → Bool) (l : List α) :
    l.countP p + (l.filter (fun a => !p a)).length = l.length := by
  induction l with
  | nil => rfl
  | cons a l ih =>
    by_cases h : p a
    · simp [List.countP_cons, List.filter_cons, h]
      omega
    · simp [List.countP_cons, List.filter_cons, h]
      omega

/-- C9: the retention sweep deletes exactly the rows with origination
time strictly older than `now - retention_days` days, returns the
number deleted, and retains rows exactly at the boundary. -/
theorem cleanup_strict_cutoff :
    ∀ (st : DBState) (now retention_days : Int),
    (∀ r ∈ st.failed_calls, ∀ t : Int, r.date_time_origination = some t →
      (r ∈ (cleanup_old_records st now retention_days).1.failed_calls ↔
        now - retention_days * 86400 ≤ t)) ∧
    ((cleanup_old_records st now retention_days).2 +
      (cleanup_old_records st now retention_days).1.failed_calls.length =
      st.failed_calls.length) ∧
    (∀ r ∈ st.failed_calls,
      r.date_time_origination = some (now - retention_days * 86400) →
      r ∈ (cleanup_old_records st now retention_days).1.failed_calls) := by
  intro st now d
  refine ⟨?_, ?_, ?_⟩
  · intro r hr t ht
    unfold cleanup_old_records
    simp only [List.mem_filter]
    constructor
    · rintro ⟨-, hkeep⟩
      unfold olderThan at hkeep
      rw [ht] at hkeep
      simp only [Bool.not_eq_true', decide_eq_false_iff_not] at hkeep
      omega
    · intro hle
      refine ⟨hr, ?_⟩
      unfold olderThan
      rw [ht]
      simp only [Bool.not_eq_true', decide_eq_false_iff_not]
      omega
  · exact countP_add_length_filter_not (olderThan (now - d * 86400)) st.failed_calls
  · intro r hr ht
    unfold cleanup_old_records
    refine List.mem_filter.mpr ⟨hr, ?_⟩
    unfold olderThan
    rw [ht]
    simp only [Bool.not_eq_true', decide_eq_false_iff_not]
    omega

/-- Witness for C9: with `now = 1000000` and 7 retention days the
cutoff is 395200; the row at 395199 is deleted and the row at exactly
395200 is retained. -/
theorem cleanup_strict_cutoff_witness :
    c9rowBoundary ∈ (cleanup_old_records c9st 1000000 7).1.failed_calls ∧
    c9rowOld ∉ (cleanup_old_records c9st 1000000 7).1.failed_calls := by
  have h := cleanup_strict_cutoff c9st 1000000 7
  refine ⟨h.2.2 c9rowBoundary (by decide) (by decide), ?_⟩
  intro hm
  have hle := (h.1 c9rowOld (by decide) 395199 (by decide)).mp hm
  exact absurd hle (by decide)
